import Mathlib

/-!
Verification development for the routee-compass search and cost-model
subsystem.  Rust source files are embedded shallowly: floating-point
numeric newtypes (`Cost`, `StateVar`) are modelled as rationals, Rust
`HashMap` tables as association lists, and fallible functions as
`Except`.
-/

/-- Cost newtype (`routee-compass-core` utility cost): a scalar ordered
numeric wrapper, modelled as a rational. -/
abbrev Cost := Rat

/-- additive identity of `Cost` (`Cost::ZERO`). -/
def Cost.ZERO : Cost := 0

/-- StateVar newtype (`state_variable.rs`): a single ordered numeric
value, modelled as a rational. -/
abbrev StateVar := Rat

/-- dense integer edge identifier. -/
abbrev EdgeId := Nat

/-- Edge record (`model/property/edge.rs`, fields per spec section 3);
only `edge_id` is consulted by the utility mappings. -/
structure Edge where
  edge_id : EdgeId
  src_vertex_id : Nat
  dst_vertex_id : Nat
  distance : Rat

/-- error type for utility mapping operations (`utility_error.rs`);
no branch of the embedded functions constructs it. -/
inductive UtilityError where
  | Message (msg : String)

/-- `HashMap::get` on an association-list model of the table:
first binding for the key, if any. -/
def hash_lookup {κ : Type} [BEq κ] (tbl : List (κ × Cost)) (k : κ) : Option Cost :=
  (tbl.find? (fun p => p.1 == k)).map (fun p => p.2)

/-- `NetworkUtilityMapping` (network_utility_mapping.rs): edge lookup
table, edge-pair lookup table, or a combined list of mappings. -/
inductive NetworkUtilityMapping where
  | EdgeLookup (lookup : List (EdgeId × Cost))
  | EdgeEdgeLookup (lookup : List ((EdgeId × EdgeId) × Cost))
  | Combined (mappings : List NetworkUtilityMapping)

mutual

/-- `NetworkUtilityMapping::traversal_cost`: edge-pair tables yield zero,
edge tables look up the edge id defaulting to zero, and `Combined`
collects each member cost and folds them with addition from zero. -/
def NetworkUtilityMapping.traversal_cost (m : NetworkUtilityMapping)
    (prev_state_var next_state_var : StateVar) (edge : Edge) :
    Except UtilityError Cost :=
  match m with
  | .EdgeEdgeLookup _ => .ok Cost.ZERO
  | .EdgeLookup lookup => .ok ((hash_lookup lookup edge.edge_id).getD Cost.ZERO)
  | .Combined mappings =>
    match NetworkUtilityMapping.traversal_cost_list mappings prev_state_var next_state_var edge with
    | .error e => .error e
    | .ok mapped => .ok (mapped.foldl (fun a b => a + b) Cost.ZERO)

/-- the `collect::<Result<Vec<Cost>, UtilityError>>()` over
`mappings.iter().map(|f| f.traversal_cost(..))`: first error short-circuits. -/
def NetworkUtilityMapping.traversal_cost_list (ms : List NetworkUtilityMapping)
    (prev_state_var next_state_var : StateVar) (edge : Edge) :
    Except UtilityError (List Cost) :=
  match ms with
  | [] => .ok []
  | m :: rest =>
    match NetworkUtilityMapping.traversal_cost m prev_state_var next_state_var edge with
    | .error e => .error e
    | .ok c =>
      match NetworkUtilityMapping.traversal_cost_list rest prev_state_var next_state_var edge with
      | .error e => .error e
      | .ok cs => .ok (c :: cs)

end

mutual

/-- `NetworkUtilityMapping::access_cost`: edge tables yield zero,
edge-pair tables look up `(prev_edge_id, next_edge_id)` defaulting to
zero, and `Combined` collects each member cost and folds them with
addition from zero. -/
def NetworkUtilityMapping.access_cost (m : NetworkUtilityMapping)
    (prev_state_var next_state_var : StateVar) (prev_edge next_edge : Edge) :
    Except UtilityError Cost :=
  match m with
  | .EdgeLookup _ => .ok Cost.ZERO
  | .EdgeEdgeLookup lookup =>
    .ok ((hash_lookup lookup (prev_edge.edge_id, next_edge.edge_id)).getD Cost.ZERO)
  | .Combined mappings =>
    match NetworkUtilityMapping.access_cost_list mappings prev_state_var next_state_var prev_edge next_edge with
    | .error e => .error e
    | .ok mapped => .ok (mapped.foldl (fun a b => a + b) Cost.ZERO)

/-- the `collect` over `mappings.iter().map(|f| f.access_cost(..))`. -/
def NetworkUtilityMapping.access_cost_list (ms : List NetworkUtilityMapping)
    (prev_state_var next_state_var : StateVar) (prev_edge next_edge : Edge) :
    Except UtilityError (List Cost) :=
  match ms with
  | [] => .ok []
  | m :: rest =>
    match NetworkUtilityMapping.access_cost m prev_state_var next_state_var prev_edge next_edge with
    | .error e => .error e
    | .ok c =>
      match NetworkUtilityMapping.access_cost_list rest prev_state_var next_state_var prev_edge next_edge with
      | .error e => .error e
      | .ok cs => .ok (c :: cs)

end

/-- folding a cost list with addition from `Cost::ZERO` computes its sum. -/
theorem foldl_add_zero_eq_sum (cs : List Cost) :
    cs.foldl (fun a b => a + b) Cost.ZERO = cs.sum := by
  rw [List.sum_eq_foldl]
  rfl

/-- Claim C1: for every list of mappings, every pair of state variables,
and every edge (resp. pair of edges), `Combined(ms).traversal_cost`
(resp. `.access_cost`) returns `Ok` of the arithmetic sum of the costs
returned by each mapping in `ms` on the same inputs, with `Cost::ZERO`
for the empty list; in particular `Combined([A, B])` equals the sum of
the costs of `A` and `B`. -/
theorem combined_mapping_sums_costs :
    ∀ (ms : List NetworkUtilityMapping) (p n : StateVar) (e pe ne : Edge),
      (∀ cs, NetworkUtilityMapping.traversal_cost_list ms p n e = .ok cs →
        NetworkUtilityMapping.traversal_cost (.Combined ms) p n e = .ok cs.sum) ∧
      (∀ cs, NetworkUtilityMapping.access_cost_list ms p n pe ne = .ok cs →
        NetworkUtilityMapping.access_cost (.Combined ms) p n pe ne = .ok cs.sum) ∧
      NetworkUtilityMapping.traversal_cost (.Combined []) p n e = .ok Cost.ZERO ∧
      NetworkUtilityMapping.access_cost (.Combined []) p n pe ne = .ok Cost.ZERO ∧
      (∀ (A B : NetworkUtilityMapping) (ca cb : Cost),
        NetworkUtilityMapping.traversal_cost A p n e = .ok ca →
        NetworkUtilityMapping.traversal_cost B p n e = .ok cb →
        NetworkUtilityMapping.traversal_cost (.Combined [A, B]) p n e = .ok (ca + cb)) ∧
      (∀ (A B : NetworkUtilityMapping) (ca cb : Cost),
        NetworkUtilityMapping.access_cost A p n pe ne = .ok ca →
        NetworkUtilityMapping.access_cost B p n pe ne = .ok cb →
        NetworkUtilityMapping.access_cost (.Combined [A, B]) p n pe ne = .ok (ca + cb)) := by
  intro ms p n e pe ne
  refine ⟨?_, ?_, ?_, ?_, ?_, ?_⟩
  · intro cs h
    simp [NetworkUtilityMapping.traversal_cost, h, foldl_add_zero_eq_sum]
  · intro cs h
    simp [NetworkUtilityMapping.access_cost, h, foldl_add_zero_eq_sum]
  · simp [NetworkUtilityMapping.traversal_cost, NetworkUtilityMapping.traversal_cost_list]
  · simp [NetworkUtilityMapping.access_cost, NetworkUtilityMapping.access_cost_list]
  · intro A B ca cb hA hB
    have hlist : NetworkUtilityMapping.traversal_cost_list [A, B] p n e = .ok [ca, cb] := by
      simp [NetworkUtilityMapping.traversal_cost_list, hA, hB]
    simp [NetworkUtilityMapping.traversal_cost, hlist, foldl_add_zero_eq_sum, Cost.ZERO]
  · intro A B ca cb hA hB
    have hlist : NetworkUtilityMapping.access_cost_list [A, B] p n pe ne = .ok [ca, cb] := by
      simp [NetworkUtilityMapping.access_cost_list, hA, hB]
    simp [NetworkUtilityMapping.access_cost, hlist, foldl_add_zero_eq_sum, Cost.ZERO]

/-- witness for C1 at a concrete two-element combined mapping. -/
theorem combined_mapping_sums_costs_witness :
    NetworkUtilityMapping.traversal_cost
      (.Combined [.EdgeLookup [(0, (2 : Cost))], .EdgeLookup [(0, (3 : Cost))]])
      0 0 (Edge.mk 0 0 1 1) = .ok ((2 : Cost) + 3) :=
  (combined_mapping_sums_costs [] 0 0 (Edge.mk 0 0 1 1) (Edge.mk 0 0 1 1)
      (Edge.mk 0 0 1 1)).2.2.2.2.1
    (.EdgeLookup [(0, 2)]) (.EdgeLookup [(0, 3)]) 2 3
    (by simp [NetworkUtilityMapping.traversal_cost, hash_lookup, List.find?, Cost.ZERO])
    (by simp [NetworkUtilityMapping.traversal_cost, hash_lookup, List.find?, Cost.ZERO])

/-- Claim C3: an `EdgeLookup` mapping's `traversal_cost` returns the cost
stored under the edge's id while its `access_cost` is always
`Cost::ZERO`; an `EdgeEdgeLookup` mapping's `access_cost` returns the
cost stored under `(prev_edge_id, next_edge_id)` while its
`traversal_cost` is always `Cost::ZERO`. -/
theorem lookup_mapping_cost_split :
    ∀ (tbl : List (EdgeId × Cost)) (tbl2 : List ((EdgeId × EdgeId) × Cost))
      (p n : StateVar) (e pe ne : Edge),
      (∀ c, hash_lookup tbl e.edge_id = some c →
        NetworkUtilityMapping.traversal_cost (.EdgeLookup tbl) p n e = .ok c) ∧
      NetworkUtilityMapping.access_cost (.EdgeLookup tbl) p n pe ne = .ok Cost.ZERO ∧
      (∀ c, hash_lookup tbl2 (pe.edge_id, ne.edge_id) = some c →
        NetworkUtilityMapping.access_cost (.EdgeEdgeLookup tbl2) p n pe ne = .ok c) ∧
      NetworkUtilityMapping.traversal_cost (.EdgeEdgeLookup tbl2) p n e = .ok Cost.ZERO := by
  intro tbl tbl2 p n e pe ne
  refine ⟨?_, ?_, ?_, ?_⟩
  · intro c h
    simp [NetworkUtilityMapping.traversal_cost, h]
  · simp [NetworkUtilityMapping.access_cost]
  · intro c h
    simp [NetworkUtilityMapping.access_cost, h]
  · simp [NetworkUtilityMapping.traversal_cost]

/-- witness for C3 at concrete singleton tables. -/
theorem lookup_mapping_cost_split_witness :
    NetworkUtilityMapping.traversal_cost (.EdgeLookup [(5, (9 : Cost))]) 0 0
      (Edge.mk 5 0 1 1) = .ok (9 : Cost) ∧
    NetworkUtilityMapping.access_cost (.EdgeEdgeLookup [((1, 2), (4 : Cost))]) 0 0
      (Edge.mk 1 0 1 1) (Edge.mk 2 1 2 1) = .ok (4 : Cost) :=
  ⟨(lookup_mapping_cost_split [(5, 9)] [((1, 2), 4)] 0 0 (Edge.mk 5 0 1 1)
      (Edge.mk 1 0 1 1) (Edge.mk 2 1 2 1)).1 9
    (by decide),
   (lookup_mapping_cost_split [(5, 9)] [((1, 2), 4)] 0 0 (Edge.mk 5 0 1 1)
      (Edge.mk 1 0 1 1) (Edge.mk 2 1 2 1)).2.2.1 4
    (by decide)⟩

/-- Claim C8: a missing table entry is never an error and never a
nonzero cost: `EdgeLookup.traversal_cost` on an edge id absent from the
table returns `Ok(Cost::ZERO)`, and `EdgeEdgeLookup.access_cost` on an
absent id pair returns `Ok(Cost::ZERO)`. -/
theorem absent_lookup_zero_cost :
    ∀ (tbl : List (EdgeId × Cost)) (tbl2 : List ((EdgeId × EdgeId) × Cost))
      (p n : StateVar) (e pe ne : Edge),
      (hash_lookup tbl e.edge_id = none →
        NetworkUtilityMapping.traversal_cost (.EdgeLookup tbl) p n e = .ok Cost.ZERO) ∧
      (hash_lookup tbl2 (pe.edge_id, ne.edge_id) = none →
        NetworkUtilityMapping.access_cost (.EdgeEdgeLookup tbl2) p n pe ne = .ok Cost.ZERO) := by
  intro tbl tbl2 p n e pe ne
  constructor
  · intro h
    simp [NetworkUtilityMapping.traversal_cost, h]
  · intro h
    simp [NetworkUtilityMapping.access_cost, h]

/-- witness for C8 at concrete tables missing the queried keys. -/
theorem absent_lookup_zero_cost_witness :
    NetworkUtilityMapping.traversal_cost (.EdgeLookup [(5, (9 : Cost))]) 0 0
      (Edge.mk 7 0 1 1) = .ok Cost.ZERO ∧
    NetworkUtilityMapping.access_cost (.EdgeEdgeLookup [((1, 2), (4 : Cost))]) 0 0
      (Edge.mk 2 0 1 1) (Edge.mk 3 1 2 1) = .ok Cost.ZERO :=
  ⟨(absent_lookup_zero_cost [(5, 9)] [((1, 2), 4)] 0 0 (Edge.mk 7 0 1 1)
      (Edge.mk 2 0 1 1) (Edge.mk 3 1 2 1)).1 (by decide),
   (absent_lookup_zero_cost [(5, 9)] [((1, 2), 4)] 0 0 (Edge.mk 7 0 1 1)
      (Edge.mk 2 0 1 1) (Edge.mk 3 1 2 1)).2 (by decide)⟩

/-- arbitrary state update function (`GenericStateUpdateOp`). -/
abbrev GenericStateUpdateOp := StateVar → StateVar → StateVar

/-- `UpdateOperation` (update_operation.rs): the type of arithmetic
operation used to update a state variable. -/
inductive UpdateOperation where
  | Replace
  | Add
  | Multiply
  | Max
  | Min
  | Function (f : GenericStateUpdateOp)

/-- `UpdateOperation::perform_operation`: applies the operation to the
previous and next state variable values. -/
def UpdateOperation.perform_operation (op : UpdateOperation)
    (prev next : StateVar) : StateVar :=
  match op with
  | .Replace => next
  | .Add => prev + next
  | .Multiply => prev * next
  | .Max => max prev next
  | .Min => min prev next
  | .Function f => f prev next

/-- Claim C5: `perform_operation` returns next for Replace, the sum for
Add, the product for Multiply, the maximum for Max, the minimum for Min,
and `f prev next` for `Function f`; as a total Lean function it never
fails on any variant or values. -/
theorem perform_operation_spec :
    ∀ (prev next : StateVar) (f : GenericStateUpdateOp),
      UpdateOperation.perform_operation .Replace prev next = next ∧
      UpdateOperation.perform_operation .Add prev next = prev + next ∧
      UpdateOperation.perform_operation .Multiply prev next = prev * next ∧
      UpdateOperation.perform_operation .Max prev next = max prev next ∧
      UpdateOperation.perform_operation .Min prev next = min prev next ∧
      UpdateOperation.perform_operation (.Function f) prev next = f prev next := by
  intro prev next f
  exact ⟨rfl, rfl, rfl, rfl, rfl, rfl⟩

/-- `CostAggregation` (cost_aggregation.rs): how per-dimension costs are
combined, arithmetic sum or product. -/
inductive CostAggregation where
  | Sum
  | Mul
deriving DecidableEq

/-- `VehicleUtilityMapping` (vehicle_utility_mapping.rs, outside src/):
only the `Raw` variant is referenced by the embedded service code. -/
inductive VehicleUtilityMapping where
  | Raw
deriving DecidableEq

/-- configuration error type (`compass_configuration_error.rs`); the
variants constructed by the embedded functions. -/
inductive CompassConfigurationError where
  | UserConfigurationError (msg : String)
  | SerdeDeserializationError (msg : String)
deriving DecidableEq

/-- a JSON key as seen by `get_config_serde_optional`: absent from the
query, present but failing deserialization, or deserialized to a value. -/
inductive JsonOpt (α : Type) where
  | absent
  | malformed (msg : String)
  | value (a : α)

/-- `ConfigJsonExtensions::get_config_serde_optional`
(config_json_extension.rs): a missing key is `Ok(None)`, a present key
deserializes or fails with `SerdeDeserializationError`. -/
def get_config_serde_optional {α : Type} :
    JsonOpt α → Except CompassConfigurationError (Option α)
  | .absent => .ok none
  | .malformed m => .error (.SerdeDeserializationError m)
  | .value a => .ok (some a)

/-- the two query keys consumed by `UtilityModelService::build`
(`vehicle_dimensions` and `cost_aggregation`). -/
structure UtilityQuery where
  vehicle_dimensions : JsonOpt (List String)
  cost_aggregation : JsonOpt CostAggregation

/-- `UtilityModel` (utility_model.rs, outside src/): record built by
`UtilityModel::new` from the resolved dimensions, the two mapping
tables, and the chosen aggregation. -/
structure UtilityModel where
  dimensions : List (String × Nat)
  vehicle_mapping : List (String × VehicleUtilityMapping)
  network_mapping : List (String × NetworkUtilityMapping)
  cost_aggregation : CostAggregation

/-- `UtilityModelService` (utility_model_service.rs). -/
structure UtilityModelService where
  vehicle_mapping : List (String × VehicleUtilityMapping)
  network_mapping : List (String × NetworkUtilityMapping)
  default_vehicle_dimensions : List String
  default_cost_aggregation : CostAggregation

/-- `UtilityModelService::default_vehicle_mapping`. -/
def UtilityModelService.default_vehicle_mapping :
    List (String × VehicleUtilityMapping) :=
  [("distance", .Raw)]

/-- `UtilityModelService::new`: missing mappings default to the distance
mapping and the empty table; an explicitly empty default dimension set
is a `UserConfigurationError`, an omitted one falls back to
`{"distance"}`; an omitted aggregation falls back to `Sum`. -/
def UtilityModelService.new
    (vehicle_mapping : Option (List (String × VehicleUtilityMapping)))
    (network_mapping : Option (List (String × NetworkUtilityMapping)))
    (default_vehicle_dimensions : Option (List String))
    (default_cost_aggregation : Option CostAggregation) :
    Except CompassConfigurationError UtilityModelService :=
  let vm := vehicle_mapping.getD UtilityModelService.default_vehicle_mapping
  let nm := network_mapping.getD []
  match default_vehicle_dimensions with
  | some dims =>
    if dims.isEmpty then
      .error (CompassConfigurationError.UserConfigurationError
        "default vehicle utility dimensions cannot be empty")
    else
      .ok (UtilityModelService.mk vm nm dims
        (default_cost_aggregation.getD CostAggregation.Sum))
  | none =>
    .ok (UtilityModelService.mk vm nm ["distance"]
      (default_cost_aggregation.getD CostAggregation.Sum))

/-- `UtilityModelService::build`: reads the optional query keys, falls
back to the service defaults, keeps from `state_dimensions` exactly the
indexed names contained in the requested dimension set, and always
returns `Ok` of the resulting model when both keys deserialize. -/
def UtilityModelService.build (s : UtilityModelService)
    (query : UtilityQuery) (state_dimensions : List String) :
    Except CompassConfigurationError UtilityModel :=
  match get_config_serde_optional query.vehicle_dimensions with
  | .error e => .error e
  | .ok dn =>
    let dimension_names := dn.getD s.default_vehicle_dimensions
    let dimensions :=
      (state_dimensions.enum.filter
        (fun p => dimension_names.contains p.2)).map (fun p => (p.2, p.1))
    match get_config_serde_optional query.cost_aggregation with
    | .error e => .error e
    | .ok ca =>
      let cost_aggregation := ca.getD s.default_cost_aggregation
      .ok (UtilityModel.mk dimensions s.vehicle_mapping s.network_mapping
        cost_aggregation)

/-- fixture service for exercising `UtilityModelService.build`. -/
def c2_service : UtilityModelService :=
  UtilityModelService.mk UtilityModelService.default_vehicle_mapping []
    ["distance"] CostAggregation.Sum

/-- fixture query requesting the unknown dimension name "foo". -/
def c2_query : UtilityQuery :=
  UtilityQuery.mk (.value ["foo"]) .absent

/-- Claim C2 counterexample: with declared state dimensions
`["distance"]` and a query requesting the unknown dimension "foo",
`build` returns `Ok` of a model with no dimensions instead of a
configuration error. -/
theorem build_unknown_dimension_not_error :
    ("foo" : String) ∈ (["foo"] : List String) ∧
    ("foo" : String) ∉ (["distance"] : List String) ∧
    UtilityModelService.build c2_service c2_query ["distance"] =
      .ok (UtilityModel.mk [] UtilityModelService.default_vehicle_mapping []
        CostAggregation.Sum) :=
  ⟨by decide, by decide, rfl⟩

/-- Claim C2 as amended: when a requested vehicle dimension name is not
among the traversal model's declared state dimension names, `build`
silently drops it and returns `Ok` of a model built from only the
resolvable dimensions (possibly none): the built model's dimensions are
exactly the declared names retained by membership in the requested set,
so every dimension of the result names a declared state dimension. -/
theorem build_filters_unknown_dimensions :
    ∀ (s : UtilityModelService) (vd : List String) (ca : CostAggregation)
      (sd : List String),
      UtilityModelService.build s (UtilityQuery.mk (.value vd) (.value ca)) sd =
        .ok (UtilityModel.mk
          ((sd.enum.filter (fun p => vd.contains p.2)).map (fun p => (p.2, p.1)))
          s.vehicle_mapping s.network_mapping ca) ∧
      (∀ m,
        UtilityModelService.build s (UtilityQuery.mk (.value vd) (.value ca)) sd = .ok m →
        ∀ nm idx, (nm, idx) ∈ m.dimensions → nm ∈ sd) := by
  intro s vd ca sd
  constructor
  · rfl
  · intro m hm nm idx hmem
    have hm2 : m = UtilityModel.mk
        ((sd.enum.filter (fun p => vd.contains p.2)).map (fun p => (p.2, p.1)))
        s.vehicle_mapping s.network_mapping ca := by
      have h1 : (Except.ok m : Except CompassConfigurationError UtilityModel) =
          .ok (UtilityModel.mk
            ((sd.enum.filter (fun p => vd.contains p.2)).map (fun p => (p.2, p.1)))
            s.vehicle_mapping s.network_mapping ca) := by
        rw [← hm]
        rfl
      exact Except.ok.inj h1
    rw [hm2] at hmem
    simp only [List.mem_map, List.mem_filter] at hmem
    obtain ⟨q, ⟨hq, _⟩, heq⟩ := hmem
    have hfst : q.2 = nm := congrArg Prod.fst heq
    have hget : sd[q.1]? = some q.2 := List.mem_enum_iff_getElem?.mp hq
    rw [hfst] at hget
    exact List.mem_iff_getElem?.mpr ⟨q.1, hget⟩

/-- witness for the amended C2 at a concrete service and query. -/
theorem build_filters_unknown_dimensions_witness :
    UtilityModelService.build c2_service
        (UtilityQuery.mk (.value ["distance"]) (.value .Sum)) ["distance", "time"] =
      .ok (UtilityModel.mk
        (((["distance", "time"] : List String).enum.filter
          (fun p => (["distance"] : List String).contains p.2)).map (fun p => (p.2, p.1)))
        c2_service.vehicle_mapping c2_service.network_mapping .Sum) ∧
    ("distance" : String) ∈ (["distance", "time"] : List String) :=
  ⟨(build_filters_unknown_dimensions c2_service ["distance"] .Sum
      ["distance", "time"]).1,
   (build_filters_unknown_dimensions c2_service ["distance"] .Sum
      ["distance", "time"]).2
     (UtilityModel.mk [("distance", 0)] UtilityModelService.default_vehicle_mapping []
       .Sum)
     (by rfl) "distance" 0 (by decide)⟩

/-- Claim C4: for every query without the `vehicle_dimensions` key,
whatever its `cost_aggregation` field holds, any model `build` returns
selects dimensions by the service's default dimension set; dually, for
every query without the `cost_aggregation` key, whatever its
`vehicle_dimensions` field holds, any returned model carries the
service's default aggregation.  Each mixed case is also given in closed
form, and a service built by `new` with nothing configured has defaults
`{"distance"}` and `Sum`. -/
theorem build_uses_service_defaults :
    ∀ (s : UtilityModelService) (sd : List String),
      (∀ (caOpt : JsonOpt CostAggregation) (m : UtilityModel),
        UtilityModelService.build s (UtilityQuery.mk .absent caOpt) sd = .ok m →
        m.dimensions = ((sd.enum.filter
          (fun p => s.default_vehicle_dimensions.contains p.2)).map
          (fun p => (p.2, p.1)))) ∧
      (∀ (vdOpt : JsonOpt (List String)) (m : UtilityModel),
        UtilityModelService.build s (UtilityQuery.mk vdOpt .absent) sd = .ok m →
        m.cost_aggregation = s.default_cost_aggregation) ∧
      (∀ ca, UtilityModelService.build s (UtilityQuery.mk .absent (.value ca)) sd =
        .ok (UtilityModel.mk
          ((sd.enum.filter
            (fun p => s.default_vehicle_dimensions.contains p.2)).map
            (fun p => (p.2, p.1)))
          s.vehicle_mapping s.network_mapping ca)) ∧
      (∀ vd, UtilityModelService.build s (UtilityQuery.mk (.value vd) .absent) sd =
        .ok (UtilityModel.mk
          ((sd.enum.filter (fun p => vd.contains p.2)).map (fun p => (p.2, p.1)))
          s.vehicle_mapping s.network_mapping s.default_cost_aggregation)) ∧
      UtilityModelService.build s (UtilityQuery.mk .absent .absent) sd =
        .ok (UtilityModel.mk
          ((sd.enum.filter
            (fun p => s.default_vehicle_dimensions.contains p.2)).map
            (fun p => (p.2, p.1)))
          s.vehicle_mapping s.network_mapping s.default_cost_aggregation) ∧
      UtilityModelService.new none none none none =
        .ok (UtilityModelService.mk UtilityModelService.default_vehicle_mapping []
          ["distance"] CostAggregation.Sum) := by
  intro s sd
  refine ⟨?_, ?_, fun ca => rfl, fun vd => rfl, rfl, rfl⟩
  · intro caOpt m hm
    cases caOpt with
    | absent =>
      rw [← Except.ok.inj hm]
      rfl
    | malformed msg => exact Except.noConfusion hm
    | value ca =>
      rw [← Except.ok.inj hm]
      rfl
  · intro vdOpt m hm
    cases vdOpt with
    | absent =>
      rw [← Except.ok.inj hm]
      rfl
    | malformed msg => exact Except.noConfusion hm
    | value vd =>
      rw [← Except.ok.inj hm]
      rfl

/-- fixture service for exercising the per-key defaults of `build`. -/
def c4_service : UtilityModelService :=
  UtilityModelService.mk UtilityModelService.default_vehicle_mapping []
    ["distance"] CostAggregation.Sum

/-- witness for C4: one query omitting only `vehicle_dimensions` and one
omitting only `cost_aggregation`, each falling back to the fixture
service's default for the missing key. -/
theorem build_uses_service_defaults_witness :
    UtilityModelService.build c4_service
        (UtilityQuery.mk .absent (.value CostAggregation.Mul))
        ["distance", "time"] =
      .ok (UtilityModel.mk
        (((["distance", "time"] : List String).enum.filter
          (fun p => c4_service.default_vehicle_dimensions.contains p.2)).map
          (fun p => (p.2, p.1)))
        c4_service.vehicle_mapping c4_service.network_mapping
        CostAggregation.Mul) ∧
    (UtilityModel.mk [("time", 1)] UtilityModelService.default_vehicle_mapping []
      CostAggregation.Sum).cost_aggregation = c4_service.default_cost_aggregation :=
  ⟨(build_uses_service_defaults c4_service ["distance", "time"]).2.2.1
     CostAggregation.Mul,
   (build_uses_service_defaults c4_service ["distance", "time"]).2.1
     (.value ["time"])
     (UtilityModel.mk [("time", 1)] UtilityModelService.default_vehicle_mapping []
       CostAggregation.Sum)
     (by rfl)⟩

/-- Claim C9: `new` with an explicitly empty default dimension set is a
`UserConfigurationError`; the `{"distance"}` fallback applies exactly
when the set is omitted, and a provided nonempty set is kept as given. -/
theorem new_empty_dimensions_error :
    ∀ (vm : Option (List (String × VehicleUtilityMapping)))
      (nm : Option (List (String × NetworkUtilityMapping)))
      (ca : Option CostAggregation),
      UtilityModelService.new vm nm (some []) ca =
        .error (CompassConfigurationError.UserConfigurationError
          "default vehicle utility dimensions cannot be empty") ∧
      UtilityModelService.new vm nm none ca =
        .ok (UtilityModelService.mk
          (vm.getD UtilityModelService.default_vehicle_mapping)
          (nm.getD []) ["distance"] (ca.getD CostAggregation.Sum)) ∧
      (∀ d ds, UtilityModelService.new vm nm (some (d :: ds)) ca =
        .ok (UtilityModelService.mk
          (vm.getD UtilityModelService.default_vehicle_mapping)
          (nm.getD []) (d :: ds) (ca.getD CostAggregation.Sum))) := by
  intro vm nm ca
  exact ⟨rfl, rfl, fun d ds => rfl⟩

/-- search error kind (`SearchError`, outside src/). Modelled from the
spec: destination unreachable and other search failures (section 7). -/
inductive SearchError where
  | DestinationUnreachable
  | InternalError (msg : String)

/-- plugin error raised while reading query fields (outside src/).
Modelled from the spec: missing required query keys fail at model-build
time (section 6). -/
inductive PluginError where
  | MissingField (field : String)

/-- application error (`AppError`): the variants constructed by
`run_vertex_oriented` and `run_edge_oriented`. -/
inductive AppError where
  | PluginError (e : PluginError)
  | ReadOnlyPoisonError (msg : String)
  | SearchError (e : SearchError)
  | BuildFailure (msg : String)

/-- Modelled from the spec: `DriverReadOnlyLock` (read_only_lock.rs,
outside src/), the driver-side handle to a shared read-only structure;
`poisoned` records a prior panic by another holder (section 5). -/
structure DriverReadOnlyLock (α : Type) where
  value : α
  poisoned : Bool

/-- Modelled from the spec: `ExecutorReadOnlyLock`, the executor-side
read handle obtained from a driver lock. -/
structure ExecutorReadOnlyLock (α : Type) where
  value : α
  poisoned : Bool

/-- `DriverReadOnlyLock::read_only`: hands an executor read handle to
the same underlying structure. -/
def DriverReadOnlyLock.read_only {α : Type} (l : DriverReadOnlyLock α) :
    ExecutorReadOnlyLock α :=
  ExecutorReadOnlyLock.mk l.value l.poisoned

/-- Modelled from the spec: read access on an executor handle fails
(rather than deadlocks) when the structure was poisoned by a panic
during another holder's access (section 5). -/
def ExecutorReadOnlyLock.read {α : Type} (l : ExecutorReadOnlyLock α) :
    Except String α :=
  if l.poisoned then .error "poisoned lock" else .ok l.value

/-- graph shared across queries (graphv2, outside src/): modelled as its
edge arena; never consulted directly by the embedded app wrapper. -/
structure Graph where
  edges : List Edge

/-- traversal model instance (outside src/). Modelled from the spec:
carries the per-query initial state (section 4.3). -/
structure TraversalModel where
  initial_state : List StateVar

/-- frontier model (outside src/). Modelled from the spec: an
edge-admissibility predicate (section 4.4). -/
structure FrontierModel where
  valid : Option Edge → Edge → List StateVar → Bool

/-- termination model (outside src/). Modelled from the spec: a
search-budget predicate over iteration counts (section 4.5). -/
structure TerminationModel where
  should_stop : Nat → Bool

/-- `EdgeTraversal` record (outside src/). Modelled from the spec:
the traversed edge with its incremental costs and resulting state
(section 3). -/
structure EdgeTraversal where
  edge_id : EdgeId
  access_cost : Cost
  traversal_cost : Cost
  result_state : List StateVar

/-- the search tree: a mapping from id to `EdgeTraversal`. -/
abbrev SearchTree := List (Nat × EdgeTraversal)

/-- `SearchAppResult` (search_app_result.rs, outside src/): the fields
constructed by the success paths of `search_app.rs`. -/
structure SearchAppResult where
  route : List EdgeTraversal
  tree : SearchTree
  search_runtime : Nat
  route_runtime : Nat
  total_runtime : Nat

/-- query fields consumed by the embedded `SearchApp` entry points;
an absent field makes the corresponding accessor fail. -/
structure SearchQuery where
  origin_vertex : Option Nat
  destination_vertex : Option Nat
  origin_edge : Option Nat
  destination_edge : Option Nat

/-- traversal model service (builders.rs, outside src/). Modelled from
the spec: `build(query_parameters) -> TraversalModel | BuildError`
(section 6). -/
structure TraversalModelService where
  build : SearchQuery → Except AppError TraversalModel

/-- Modelled from the spec: `get_origin_vertex`
(input_json_extensions.rs, outside src/) reads the origin vertex key or
fails with a plugin error. -/
def get_origin_vertex (q : SearchQuery) : Except PluginError Nat :=
  match q.origin_vertex with
  | some v => .ok v
  | none => .error (.MissingField "origin_vertex")

/-- Modelled from the spec: `get_destination_vertex` reads the
destination vertex key or fails with a plugin error. -/
def get_destination_vertex (q : SearchQuery) : Except PluginError Nat :=
  match q.destination_vertex with
  | some v => .ok v
  | none => .error (.MissingField "destination_vertex")

/-- Modelled from the spec: `get_origin_edge` reads the origin edge key
or fails with a plugin error. -/
def get_origin_edge (q : SearchQuery) : Except PluginError Nat :=
  match q.origin_edge with
  | some v => .ok v
  | none => .error (.MissingField "origin_edge")

/-- Modelled from the spec: `get_destination_edge` reads the destination
edge key or fails with a plugin error. -/
def get_destination_edge (q : SearchQuery) : Except PluginError Nat :=
  match q.destination_edge with
  | some v => .ok v
  | none => .error (.MissingField "destination_edge")

/-- `SearchApp` (search_app.rs): driver read-only locks around the
shared graph, traversal model service, frontier model, and termination
model. -/
structure SearchApp where
  graph : DriverReadOnlyLock Graph
  traversal_model_service : DriverReadOnlyLock TraversalModelService
  frontier_model : DriverReadOnlyLock FrontierModel
  termination_model : DriverReadOnlyLock TerminationModel

/-- `SearchApp::run_vertex_oriented` (search_app.rs): reads the origin
and destination vertices, acquires executor read handles, reads the
traversal model service lock (mapping a poisoned lock to
`ReadOnlyPoisonError`), builds the per-query traversal model, runs the
supplied A* search and backtracking (outside src/, passed as
arguments), and assembles the result record; search and backtrack
failures are tagged `SearchError`.  Wall-clock runtimes are supplied as
arguments. -/
def SearchApp.run_vertex_oriented (app : SearchApp)
    (run_a_star : ExecutorReadOnlyLock Graph → Nat → Nat → TraversalModel →
      ExecutorReadOnlyLock FrontierModel → ExecutorReadOnlyLock TerminationModel →
      Except SearchError SearchTree)
    (backtrack : Nat → Nat → SearchTree → Except SearchError (List EdgeTraversal))
    (search_runtime route_runtime : Nat)
    (query : SearchQuery) : Except AppError SearchAppResult :=
  match get_origin_vertex query with
  | .error e => .error (AppError.PluginError e)
  | .ok o =>
    match get_destination_vertex query with
    | .error e => .error (AppError.PluginError e)
    | .ok d =>
      let dg_inner := app.graph.read_only
      match app.traversal_model_service.read_only.read with
      | .error e => .error (AppError.ReadOnlyPoisonError e)
      | .ok service =>
        match service.build query with
        | .error e => .error e
        | .ok tm_inner =>
          let fm_inner := app.frontier_model.read_only
          let rm_inner := app.termination_model.read_only
          match run_a_star dg_inner o d tm_inner fm_inner rm_inner with
          | .error e => .error (AppError.SearchError e)
          | .ok tree =>
            match backtrack o d tree with
            | .error e => .error (AppError.SearchError e)
            | .ok route =>
              .ok (SearchAppResult.mk route tree search_runtime route_runtime
                (search_runtime + route_runtime))

/-- `SearchApp::run_edge_oriented` (search_app.rs): as the vertex
variant but keyed on origin and destination edges, with edge-oriented
search and backtracking over a second graph read handle. -/
def SearchApp.run_edge_oriented (app : SearchApp)
    (run_a_star_edge_oriented : ExecutorReadOnlyLock Graph → Nat → Nat →
      TraversalModel → ExecutorReadOnlyLock FrontierModel →
      ExecutorReadOnlyLock TerminationModel → Except SearchError SearchTree)
    (backtrack_edges : Nat → Nat → SearchTree → ExecutorReadOnlyLock Graph →
      Except SearchError (List EdgeTraversal))
    (search_runtime route_runtime : Nat)
    (query : SearchQuery) : Except AppError SearchAppResult :=
  match get_origin_edge query with
  | .error e => .error (AppError.PluginError e)
  | .ok o =>
    match get_destination_edge query with
    | .error e => .error (AppError.PluginError e)
    | .ok d =>
      let dg_inner_search := app.graph.read_only
      let dg_inner_backtrack := app.graph.read_only
      match app.traversal_model_service.read_only.read with
      | .error e => .error (AppError.ReadOnlyPoisonError e)
      | .ok service =>
        match service.build query with
        | .error e => .error e
        | .ok tm_inner =>
          let fm_inner := app.frontier_model.read_only
          let rm_inner := app.termination_model.read_only
          match run_a_star_edge_oriented dg_inner_search o d tm_inner fm_inner rm_inner with
          | .error e => .error (AppError.SearchError e)
          | .ok tree =>
            match backtrack_edges o d tree dg_inner_backtrack with
            | .error e => .error (AppError.SearchError e)
            | .ok route =>
              .ok (SearchAppResult.mk route tree search_runtime route_runtime
                (search_runtime + route_runtime))

/-- Claim C6: for every query that resolves its origin and destination,
if the shared traversal-model-service read lock was poisoned then
`run_vertex_oriented` and `run_edge_oriented` return the distinct
`ReadOnlyPoisonError` kind, regardless of the search functions: the
search never runs on the poisoned shared structure. -/
theorem poisoned_lock_distinct_error :
    ∀ (app : SearchApp) (ras rase) (bt bte) (sr rr : Nat) (q : SearchQuery)
      (o d : Nat),
      app.traversal_model_service.poisoned = true →
      (get_origin_vertex q = .ok o → get_destination_vertex q = .ok d →
        SearchApp.run_vertex_oriented app ras bt sr rr q =
          .error (AppError.ReadOnlyPoisonError "poisoned lock")) ∧
      (get_origin_edge q = .ok o → get_destination_edge q = .ok d →
        SearchApp.run_edge_oriented app rase bte sr rr q =
          .error (AppError.ReadOnlyPoisonError "poisoned lock")) := by
  intro app ras rase bt bte sr rr q o d hpoison
  constructor
  · intro ho hd
    simp [SearchApp.run_vertex_oriented, ho, hd, ExecutorReadOnlyLock.read,
      DriverReadOnlyLock.read_only, hpoison]
  · intro ho hd
    simp [SearchApp.run_edge_oriented, ho, hd, ExecutorReadOnlyLock.read,
      DriverReadOnlyLock.read_only, hpoison]

/-- fixture traversal model for exercising the search app wrapper. -/
def tm_fixture : TraversalModel := TraversalModel.mk [0]

/-- fixture search app whose traversal model service lock is poisoned. -/
def poisoned_app : SearchApp :=
  SearchApp.mk
    (DriverReadOnlyLock.mk (Graph.mk []) false)
    (DriverReadOnlyLock.mk
      (TraversalModelService.mk (fun _ => .ok tm_fixture)) true)
    (DriverReadOnlyLock.mk (FrontierModel.mk (fun _ _ _ => true)) false)
    (DriverReadOnlyLock.mk (TerminationModel.mk (fun _ => false)) false)

/-- fixture query naming vertex 0 to 1 and edge 0 to 1. -/
def q_fixture : SearchQuery := SearchQuery.mk (some 0) (some 1) (some 0) (some 1)

/-- witness for C6: the poisoned fixture app rejects the fixture query
with `ReadOnlyPoisonError` in both orientations. -/
theorem poisoned_lock_distinct_error_witness :
    SearchApp.run_vertex_oriented poisoned_app (fun _ _ _ _ _ _ => .ok [])
        (fun _ _ _ => .ok []) 1 2 q_fixture =
      .error (AppError.ReadOnlyPoisonError "poisoned lock") ∧
    SearchApp.run_edge_oriented poisoned_app (fun _ _ _ _ _ _ => .ok [])
        (fun _ _ _ _ => .ok []) 1 2 q_fixture =
      .error (AppError.ReadOnlyPoisonError "poisoned lock") :=
  ⟨(poisoned_lock_distinct_error poisoned_app (fun _ _ _ _ _ _ => .ok [])
      (fun _ _ _ _ _ _ => .ok []) (fun _ _ _ => .ok []) (fun _ _ _ _ => .ok [])
      1 2 q_fixture 0 1 rfl).1 rfl rfl,
   (poisoned_lock_distinct_error poisoned_app (fun _ _ _ _ _ _ => .ok [])
      (fun _ _ _ _ _ _ => .ok []) (fun _ _ _ => .ok []) (fun _ _ _ _ => .ok [])
      1 2 q_fixture 0 1 rfl).2 rfl rfl⟩

/-- Claim C7: when every stage succeeds, `run_vertex_oriented` and
`run_edge_oriented` return the result record holding the route (ordered
list of `EdgeTraversal`), the search tree (mapping id to
`EdgeTraversal`), the search runtime, and the route runtime; a failed
search or backtrack instead yields a tagged `SearchError`. -/
theorem run_result_contract :
    ∀ (app : SearchApp) (ras rase) (bt bte) (sr rr : Nat) (q : SearchQuery)
      (o d : Nat) (tm : TraversalModel) (tree : SearchTree)
      (route : List EdgeTraversal) (err : SearchError),
      app.traversal_model_service.poisoned = false →
      app.traversal_model_service.value.build q = .ok tm →
      (get_origin_vertex q = .ok o → get_destination_vertex q = .ok d →
        (ras app.graph.read_only o d tm app.frontier_model.read_only
            app.termination_model.read_only = .ok tree →
          (bt o d tree = .ok route →
            SearchApp.run_vertex_oriented app ras bt sr rr q =
              .ok (SearchAppResult.mk route tree sr rr (sr + rr))) ∧
          (bt o d tree = .error err →
            SearchApp.run_vertex_oriented app ras bt sr rr q =
              .error (AppError.SearchError err))) ∧
        (ras app.graph.read_only o d tm app.frontier_model.read_only
            app.termination_model.read_only = .error err →
          SearchApp.run_vertex_oriented app ras bt sr rr q =
            .error (AppError.SearchError err))) ∧
      (get_origin_edge q = .ok o → get_destination_edge q = .ok d →
        (rase app.graph.read_only o d tm app.frontier_model.read_only
            app.termination_model.read_only = .ok tree →
          (bte o d tree app.graph.read_only = .ok route →
            SearchApp.run_edge_oriented app rase bte sr rr q =
              .ok (SearchAppResult.mk route tree sr rr (sr + rr))) ∧
          (bte o d tree app.graph.read_only = .error err →
            SearchApp.run_edge_oriented app rase bte sr rr q =
              .error (AppError.SearchError err))) ∧
        (rase app.graph.read_only o d tm app.frontier_model.read_only
            app.termination_model.read_only = .error err →
          SearchApp.run_edge_oriented app rase bte sr rr q =
            .error (AppError.SearchError err))) := by
  intro app ras rase bt bte sr rr q o d tm tree route err hpoison hbuild
  have hread : app.traversal_model_service.read_only.read =
      .ok app.traversal_model_service.value := by
    simp [ExecutorReadOnlyLock.read, DriverReadOnlyLock.read_only, hpoison]
  constructor
  · intro ho hd
    constructor
    · intro hras
      constructor
      · intro hbt
        simp [SearchApp.run_vertex_oriented, ho, hd, hread, hbuild, hras, hbt]
      · intro hbt
        simp [SearchApp.run_vertex_oriented, ho, hd, hread, hbuild, hras, hbt]
    · intro hras
      simp [SearchApp.run_vertex_oriented, ho, hd, hread, hbuild, hras]
  · intro ho hd
    constructor
    · intro hras
      constructor
      · intro hbt
        simp [SearchApp.run_edge_oriented, ho, hd, hread, hbuild, hras, hbt]
      · intro hbt
        simp [SearchApp.run_edge_oriented, ho, hd, hread, hbuild, hras, hbt]
    · intro hras
      simp [SearchApp.run_edge_oriented, ho, hd, hread, hbuild, hras]

/-- fixture search app with a healthy traversal model service lock. -/
def healthy_app : SearchApp :=
  SearchApp.mk
    (DriverReadOnlyLock.mk (Graph.mk []) false)
    (DriverReadOnlyLock.mk
      (TraversalModelService.mk (fun _ => .ok tm_fixture)) false)
    (DriverReadOnlyLock.mk (FrontierModel.mk (fun _ _ _ => true)) false)
    (DriverReadOnlyLock.mk (TerminationModel.mk (fun _ => false)) false)

/-- fixture edge traversal record. -/
def et_fixture : EdgeTraversal := EdgeTraversal.mk 0 0 1 [1]

/-- witness for C7: a successful run on the healthy fixture app returns
the assembled result record. -/
theorem run_result_contract_witness :
    SearchApp.run_vertex_oriented healthy_app
        (fun _ _ _ _ _ _ => .ok [(1, et_fixture)])
        (fun _ _ _ => .ok [et_fixture]) 3 4 q_fixture =
      .ok (SearchAppResult.mk [et_fixture] [(1, et_fixture)] 3 4 (3 + 4)) :=
  (((run_result_contract healthy_app (fun _ _ _ _ _ _ => .ok [(1, et_fixture)])
      (fun _ _ _ _ _ _ => .ok [(1, et_fixture)]) (fun _ _ _ => .ok [et_fixture])
      (fun _ _ _ _ => .ok [et_fixture]) 3 4 q_fixture 0 1 tm_fixture
      [(1, et_fixture)] [et_fixture] SearchError.DestinationUnreachable
      rfl rfl).1 rfl rfl).1 rfl).1 rfl

/-- `ROUTEE_SCALE_FACTOR` (powertrain.rs): integer scaling factor. -/
def ROUTEE_SCALE_FACTOR : Rat := 1000000000

/-- `CENTIMETERS_TO_MILES` (powertrain.rs): 6.213712e-6. -/
def CENTIMETERS_TO_MILES : Rat := 6213712 / 1000000000000

/-- `Link` (graph.rs of the prototype, outside src/): the fields
consulted by the powertrain cost functions. -/
structure Link where
  distance_centimeters : Nat
  grade : Int
  stop_sign : Bool
  traffic_light : Bool

/-- `link.distance_centimeters as f64 * CENTIMETERS_TO_MILES`. -/
def link_distance_miles (link : Link) : Rat :=
  (link.distance_centimeters : Rat) * CENTIMETERS_TO_MILES

/-- the clamp applied to a raw predicted energy-per-mile value in
`compute_energy_over_path`, `build_routee_cost_function_with_tods`, and
`build_routee_cost_function_with_cost`: negatives become `0.0`. -/
def clamped_energy_per_mile (raw_energy_per_mile : Rat) : Rat :=
  if raw_energy_per_mile < 0 then 0 else raw_energy_per_mile

/-- the per-link distance-based energy contribution: the clamped
energy-per-mile prediction times the link distance in miles. -/
def distance_energy (raw_energy_per_mile : Rat) (link : Link) : Rat :=
  clamped_energy_per_mile raw_energy_per_mile * link_distance_miles link

/-- per-link energy in `compute_energy_over_path` and both closure
builders (powertrain.rs): clamped prediction times distance, plus the
stop cost at stop signs and half the stop cost at traffic lights; the
ML predictor is opaque, so its output is an argument. -/
def link_energy (raw_energy_per_mile : Rat) (link : Link)
    (stop_cost_gallons_diesel : Rat) : Rat :=
  let energy := distance_energy raw_energy_per_mile link
  let energy :=
    if link.stop_sign then energy + stop_cost_gallons_diesel else energy
  if link.traffic_light then energy + (1 / 2 : Rat) * stop_cost_gallons_diesel
  else energy

/-- `compute_energy_over_path` (powertrain.rs): sums the per-link
energies over the path zipped with the predicted energy rates. -/
def compute_energy_over_path (energy_per_mile : List Rat) (path : List Link)
    (stop_cost_gallons_diesel : Rat) : Rat :=
  ((energy_per_mile.zip path).map
    (fun p => link_energy p.1 p.2 stop_cost_gallons_diesel)).sum

/-- the closure of `build_routee_cost_function_with_tods`: scaled and
rounded per-link energy. -/
def routee_cost_with_tods (raw_energy_per_mile : Rat) (link : Link)
    (stop_cost_gallons_diesel : Rat) : Int :=
  round (link_energy raw_energy_per_mile link stop_cost_gallons_diesel *
    ROUTEE_SCALE_FACTOR)

/-- the closure of `build_routee_cost_function_with_cost`: energy
dollars plus time dollars, scaled and rounded. -/
def routee_cost_with_cost (raw_energy_per_mile : Rat) (link : Link)
    (stop_cost_gallons_diesel speed_mph dollar_per_gallon dollar_per_hour : Rat) :
    Int :=
  let time_hours := link_distance_miles link / speed_mph
  let energy := link_energy raw_energy_per_mile link stop_cost_gallons_diesel
  round ((energy * dollar_per_gallon + time_hours * dollar_per_hour) *
    ROUTEE_SCALE_FACTOR)

/-- Claim C10: every energy computation clamps a negative predicted
energy-per-mile to zero before multiplying by distance, so the per-link
distance-based energy contribution is never negative (and vanishes for
a negative prediction); `compute_energy_over_path` accumulates exactly
these per-link energies. -/
theorem distance_energy_clamped_nonneg :
    ∀ (raw : Rat) (link : Link) (sc : Rat) (raws : List Rat) (path : List Link),
      0 ≤ clamped_energy_per_mile raw ∧
      0 ≤ distance_energy raw link ∧
      (raw < 0 → distance_energy raw link = 0) ∧
      (link.stop_sign = false → link.traffic_light = false →
        link_energy raw link sc = distance_energy raw link) ∧
      (∀ r l, compute_energy_over_path (r :: raws) (l :: path) sc =
        link_energy r l sc + compute_energy_over_path raws path sc) := by
  intro raw link sc raws path
  have hclamp : 0 ≤ clamped_energy_per_mile raw := by
    unfold clamped_energy_per_mile
    split
    · exact le_refl 0
    · linarith [not_lt.mp (by assumption)]
  have hdist : (0 : Rat) ≤ link_distance_miles link := by
    unfold link_distance_miles CENTIMETERS_TO_MILES
    positivity
  refine ⟨hclamp, ?_, ?_, ?_, ?_⟩
  · exact mul_nonneg hclamp hdist
  · intro hneg
    unfold distance_energy clamped_energy_per_mile
    rw [if_pos hneg]
    ring
  · intro hss htl
    unfold link_energy
    rw [hss, htl]
    simp
  · intro r l
    unfold compute_energy_over_path
    simp [List.zip_cons_cons]

/-- witness for C10 at a concrete negative prediction. -/
theorem distance_energy_clamped_nonneg_witness :
    distance_energy (-3) (Link.mk 100000 0 false false) = 0 :=
  (distance_energy_clamped_nonneg (-3) (Link.mk 100000 0 false false) 1 [] []).2.2.1
    (by norm_num)
